import Mathlib

/-!
Shallow embedding of the backend of a desktop video-editing / recording
application (Rust sources under src-tauri/src), together with proofs of the
spec's testable properties.

Conventions of the embedding:
* Rust f64 values that carry timeline times are modelled as ℚ.  Every
  arithmetic operation the embedded code performs on them (+, -, <,
  floor, truncating remainder) is exact on the inputs the claims use, so ℚ
  is a faithful model there.
* Rust's Display of an f64 inside format! strings is modelled by ratStr,
  a decimal rendering (integer part, then fractional digits); its exact
  digits never influence any structural claim.
* Fallible Rust functions returning Result are modelled with Except.
* Process-spawning commands are modelled as pure state transformers over an
  explicit environment of external outcomes, returning the list of external
  actions they perform, so that claims about side effects are statable.
-/

namespace CapCut

/-- Decimal digits of the fractional part 0 ≤ q < 1, with fuel; models the
digits Rust's f64 Display prints for an exactly representable value. -/
def fracDigits : Nat → ℚ → List Char
  | 0, _ => []
  | fuel + 1, q =>
    if q = 0 then []
    else
      let q10 := q * 10
      let d : Int := ⌊q10⌋
      Nat.digitChar d.toNat :: fracDigits fuel (q10 - (d : ℚ))

/-- Decimal rendering of a nonnegative rational. -/
def ratStrNonneg (q : ℚ) : String :=
  let ip : Int := ⌊q⌋
  let fp := q - (ip : ℚ)
  if fp = 0 then toString ip
  else toString ip ++ "." ++ String.mk (fracDigits 64 fp)

/-- Decimal rendering of a rational, modelling Rust's f64 Display. -/
def ratStr (q : ℚ) : String :=
  if q < 0 then "-" ++ ratStrNonneg (-q) else ratStrNonneg q

/-- ClipInfo (ffmpeg.rs lines 22-33). -/
structure ClipInfo where
  file_path : String
  start_time : ℚ
  duration : ℚ
  trim_start : ℚ
  trim_end : ℚ
deriving DecidableEq, Repr

/-- The resolution match at the head of build_filter_complex
(ffmpeg.rs lines 303-308): named profile to scale string, none = invalid. -/
def resolutionScale (r : String) : Option String :=
  if r = "720p" then some "1280:720"
  else if r = "1080p" then some "1920:1080"
  else if r = "source" then some "-1:-1"
  else none

/-- Label pushed for a gap segment (ffmpeg.rs line 329 / 360). -/
def gapLabel (i : Nat) : String := "[gap" ++ Nat.repr i ++ "]"

/-- Label pushed for a clip segment (ffmpeg.rs line 342). -/
def clipLabel (i : Nat) : String := "[clip" ++ Nat.repr i ++ "]"

/-- The black-gap generator filter string (ffmpeg.rs lines 321-327). -/
def gapFilter (d : ℚ) (fps : Nat) (scale : String) (i : Nat) : String :=
  "color=c=black:s=1920x1080:d=" ++ ratStr d ++ ":r=" ++ Nat.repr fps
    ++ ",scale=" ++ scale ++ gapLabel i

/-- The trim-and-scale filter string for clip i (ffmpeg.rs lines 333-340). -/
def trimFilter (i : Nat) (trimStart dur : ℚ) (scale : String) : String :=
  "[" ++ Nat.repr i ++ ":v]trim=start=" ++ ratStr trimStart ++ ":duration="
    ++ ratStr dur ++ ",setpts=PTS-STARTPTS,scale=" ++ scale ++ clipLabel i

/-- The main loop of build_filter_complex (ffmpeg.rs lines 315-345): walks the
enumerated clips with the running cursor, returning the filter strings, the
segment labels in emission order, and the final cursor value. -/
def buildSegments (scale : String) (fps : Nat) :
    List (Nat × ClipInfo) → ℚ → List String × List String × ℚ
  | [], t => ([], [], t)
  | (i, clip) :: rest, t =>
    let gaps :=
      if t < clip.start_time then
        ([gapFilter (clip.start_time - t) fps scale i], [gapLabel i])
      else ([], [])
    let tail := buildSegments scale fps rest (clip.start_time + clip.duration)
    (gaps.1 ++ trimFilter i clip.trim_start clip.duration scale :: tail.1,
     gaps.2 ++ clipLabel i :: tail.2.1, tail.2.2)

/-- Body of build_filter_complex after the resolution match
(ffmpeg.rs lines 310-372): the loop, the trailing gap when the cursor is
short of the composition length, and the final concat directive.  Returns
(all filter strings including the concat line, segment labels in emission
order). -/
def composeParts (clips : List ClipInfo) (scale : String) (fps : Nat) (L : ℚ) :
    List String × List String :=
  let core := buildSegments scale fps clips.enum 0
  let parts :=
    if core.2.2 < L then
      (core.1 ++ [gapFilter (L - core.2.2) fps scale clips.length],
       core.2.1 ++ [gapLabel clips.length])
    else (core.1, core.2.1)
  (parts.1 ++ [String.join parts.2 ++ "concat=n=" ++ Nat.repr parts.2.length
      ++ ":v=1:a=0[outv]"], parts.2)

/-- build_filter_complex (ffmpeg.rs lines 296-373). -/
def build_filter_complex (clips : List ClipInfo) (resolution : String)
    (fps : Nat) (composition_length : ℚ) : Except String String :=
  match resolutionScale resolution with
  | none => .error ("Invalid resolution: " ++ resolution)
  | some scale =>
    .ok (String.intercalate ";"
      (composeParts clips scale fps composition_length).1)

/-- export_video (ffmpeg.rs lines 238-293), modelled up to the engine
invocation: returns the full argument list that would be passed to the
engine, or the error raised before any invocation. -/
def export_video (clips : List ClipInfo) (output_path resolution : String)
    (fps : Nat) (composition_length : ℚ) : Except String (List String) :=
  if clips.isEmpty then .error "No clips to export"
  else
    (build_filter_complex clips resolution fps composition_length).map fun fc =>
      "-y" :: (clips.map fun c => ["-i", c.file_path]).flatten
        ++ ["-filter_complex", fc, "-map", "[outv]", "-r", Nat.repr fps,
            "-c:v", "libx264", "-preset", "medium", "-crf", "23", output_path]

/-! Spec-side counting functions for the compositor claims. -/

/-- Number of strictly positive gaps a sorted, overlap-free clip list has
when played from cursor t, including the trailing gap up to the
composition length L (the spec's n_gaps). -/
def specGapCount (L : ℚ) : ℚ → List ClipInfo → Nat
  | t, [] => if t < L then 1 else 0
  | t, c :: r =>
    (if t < c.start_time then 1 else 0)
      + specGapCount L (c.start_time + c.duration) r

/-- Number of strictly positive gaps before or between clips (no trailing
gap). -/
def internalGapCount : ℚ → List ClipInfo → Nat
  | _, [] => 0
  | t, c :: r =>
    (if t < c.start_time then 1 else 0)
      + internalGapCount (c.start_time + c.duration) r

/-- Cursor value after playing the clips from cursor t. -/
def cursorAfter : ℚ → List ClipInfo → ℚ
  | t, [] => t
  | _, c :: r => cursorAfter (c.start_time + c.duration) r

/-- The clip list is sorted by timeline start offset and overlap-free when
played from cursor t: each clip starts no earlier than the end of the
previous one. -/
def sortedNoOverlap : ℚ → List ClipInfo → Bool
  | _, [] => true
  | t, c :: r =>
    decide (t ≤ c.start_time) && sortedNoOverlap (c.start_time + c.duration) r

/-- a clip list equality that ignores the trim_end field. -/
def eqExceptTrimEnd (a b : ClipInfo) : Prop :=
  a.file_path = b.file_path ∧ a.start_time = b.start_time ∧
  a.duration = b.duration ∧ a.trim_start = b.trim_start

/-! ### Recording session state machine (recording.rs) -/

/-- Is the first character list an initial segment of the second? -/
def charsStartWith : List Char → List Char → Bool
  | [], _ => true
  | _ :: _, [] => false
  | p :: ps, c :: cs => p == c && charsStartWith ps cs

/-- Does the first character list occur contiguously inside the second? -/
def charsInfixOf (pat : List Char) : List Char → Bool
  | [] => charsStartWith pat []
  | c :: cs => charsStartWith pat (c :: cs) || charsInfixOf pat cs

/-- Rust str::contains with a string pattern: substring occurrence test. -/
def containsSubstr (s pat : String) : Bool :=
  charsInfixOf pat.data s.data

/-- RecordingType (recording.rs lines 20-24). -/
inductive RecordingType where
  | screen
  | webcam (camera_index : Nat)
deriving DecidableEq, Repr

/-- RecordingState (recording.rs lines 12-18); the Instant start time is
modelled as a Nat timestamp. -/
structure RecordingState where
  is_recording : Bool
  start_time : Option Nat
  output_path : Option String
  recording_type : RecordingType
deriving DecidableEq, Repr

/-- Default::default for RecordingState (recording.rs lines 26-35). -/
def RecordingState.init : RecordingState := ⟨false, none, none, .screen⟩

/-- The process-wide state: the RECORDING_STATE session and the
RECORDING_PROCESS child handle (recording.rs lines 38-39); an owned process
handle is modelled by its pid. -/
structure Global where
  session : RecordingState
  process : Option Nat
deriving DecidableEq, Repr

/-- Global state at startup: default session, no owned process handle. -/
def initialGlobal : Global := ⟨RecordingState.init, none⟩

/-- External actions a command performs on the outside world, recorded in
order. -/
inductive Action where
  | spawn (kind : RecordingType)
  | writeQuit
  | sleepMs (ms : Nat)
  | kill
  | wait
deriving DecidableEq, Repr

/-- Outcome of a Child::try_wait call: Ok(Some status) / Ok(None) / Err. -/
inductive TryWait where
  | exited (success : Bool)
  | running
  | errored
deriving DecidableEq, Repr

/-- External nondeterminism observed by a start command: whether the
executor was found, whether the spawn succeeded, the pid, the clock, and
(webcam only) the immediate-exit probe outcome with its stderr text. -/
structure StartEnv where
  executor_ok : Bool
  executor_err : String
  spawn_ok : Bool
  spawn_err : String
  pid : Nat
  now : Nat
  tw_startup : TryWait
  stderr_startup : String
  status_dbg : String
deriving DecidableEq, Repr

/-- start_screen_recording (recording.rs lines 51-97): rejects when already
recording, then obtains the executor, spawns, stores the handle and enters
the Recording state. -/
def start_screen_recording (env : StartEnv) (output_path : String)
    (g : Global) : Except String Unit × Global × List Action :=
  if g.session.is_recording then
    (.error "Recording is already in progress", g, [])
  else if env.executor_ok = false then (.error env.executor_err, g, [])
  else if env.spawn_ok = false then
    (.error ("Failed to start FFmpeg recording: " ++ env.spawn_err), g, [])
  else
    (.ok (),
     ⟨⟨true, some env.now, some output_path, .screen⟩, some env.pid⟩,
     [.spawn .screen])

/-- start_webcam_recording (recording.rs lines 101-174): like the screen
start but, after spawning, sleeps 500 ms and probes try_wait; an immediate
exit is a startup failure (the child is dropped, nothing stored), a Running
or Err probe proceeds to store the handle and enter Recording. -/
def start_webcam_recording (env : StartEnv) (output_path : String)
    (camera_index : Nat) (g : Global) :
    Except String Unit × Global × List Action :=
  if g.session.is_recording then
    (.error "Recording is already in progress", g, [])
  else if env.executor_ok = false then (.error env.executor_err, g, [])
  else if env.spawn_ok = false then
    (.error ("Failed to start FFmpeg webcam recording: " ++ env.spawn_err),
     g, [])
  else
    match env.tw_startup with
    | .exited _ =>
      (.error (if env.stderr_startup = "" then
          "FFmpeg exited immediately with status: " ++ env.status_dbg
        else "FFmpeg exited immediately: " ++ env.stderr_startup),
       g, [.spawn (.webcam camera_index), .sleepMs 500])
    | _ =>
      (.ok (),
       ⟨⟨true, some env.now, some output_path, .webcam camera_index⟩,
        some env.pid⟩,
       [.spawn (.webcam camera_index), .sleepMs 500])

/-- External nondeterminism observed by stop_recording: the first try_wait
outcome, the stderr texts drained on the already-exited and still-running
paths, the liveness re-check after the grace sleep, and the output file
metadata (none = missing, some n = size in bytes). -/
structure StopEnv where
  tw1 : TryWait
  stderr_exit : String
  stderr_run : String
  still_running : Bool
  file_len : Option Nat
deriving DecidableEq, Repr

/-- stop_recording (recording.rs lines 178-279): rejects when idle; takes the
process handle out of shared state; if the process already exited drains
stderr for a diagnostic, otherwise writes the quit byte, sleeps the fixed
1000 ms grace period, re-checks liveness, kills if needed, drains stderr
(pattern-matching permission/device phrases) and waits; then unconditionally
clears the session back to Idle and validates the output file. -/
def stop_recording (env : StopEnv) (g : Global) :
    Except String String × Global × List Action :=
  if g.session.is_recording = false then
    (.error "No recording in progress", g, [])
  else
    let step : Option String × List Action :=
      match g.process with
      | none => (some "Recording process not found", [])
      | some _ =>
        match env.tw1 with
        | .exited success =>
          if success then (none, [])
          else if env.stderr_exit = "" then (none, [])
          else (some ("FFmpeg process exited with error: " ++ env.stderr_exit),
            [])
        | .running =>
          let msg :=
            if env.stderr_run = "" then none
            else if containsSubstr env.stderr_run "Permission denied"
                || containsSubstr env.stderr_run "No permission" then
              some ("Camera permission denied. "
                ++ "Please grant camera access in System Settings.")
            else if containsSubstr env.stderr_run "Device not found"
                || containsSubstr env.stderr_run "No such device" then
              some "Camera not found or not accessible."
            else none
          (msg, [.writeQuit, .sleepMs 1000]
            ++ (if env.still_running then [.kill] else []) ++ [.wait])
        | .errored => (none, [])
    let g2 : Global :=
      ⟨⟨false, none, g.session.output_path, g.session.recording_type⟩, none⟩
    match g.session.output_path with
    | none => (.error "No output path found", g2, step.2)
    | some out =>
      match env.file_len with
      | none =>
        (.error (step.1.getD ("Recording file not found at: " ++ out)),
         g2, step.2)
      | some 0 =>
        (.error (step.1.getD ("Recording produced an empty file. "
          ++ "Camera may not have been accessed.")), g2, step.2)
      | some _ => (.ok out, g2, step.2)

/-- get_recording_status (recording.rs lines 283-304): a pure read-only
snapshot (is_recording, elapsed = now - start_time when set else 0,
output path, recording type); it takes no ownership and mutates nothing,
which its type makes explicit by returning no new Global. -/
def get_recording_status (now : Nat) (g : Global) :
    Bool × Nat × Option String × RecordingType :=
  (g.session.is_recording,
   (g.session.start_time.map fun s => now - s).getD 0,
   g.session.output_path, g.session.recording_type)

/-- The spec's session invariant: an inactive session has no start time and
no owned process handle. -/
def SessionInv (g : Global) : Prop :=
  g.session.is_recording = false →
    g.session.start_time = none ∧ g.process = none

/-! ### Device-list parsing (ffmpeg.rs list_cameras)

Strings are handled at character level; the byte indices of Rust's rfind
and slicing coincide with character indices on the ASCII diagnostic lines
this parser consumes. -/

/-- CameraInfo (ffmpeg.rs lines 35-39). -/
structure CameraInfo where
  index : Nat
  name : String
deriving DecidableEq, Repr

/-- Rust str::trim on a character list. -/
def trimChars (cs : List Char) : List Char :=
  ((cs.dropWhile Char.isWhitespace).reverse.dropWhile
    Char.isWhitespace).reverse

/-- Index of the last occurrence of pat in s (Rust str::rfind with a string
pattern). -/
def rfindSubstr (s pat : List Char) : Option Nat :=
  ((List.range (s.length + 1)).filter
    (fun i => charsStartWith pat (s.drop i))).getLast?

/-- Rust u32::from_str: an optional leading plus sign, then one or more
digits, with the value in u32 range. -/
def parseU32 (cs : List Char) : Option Nat :=
  let ds := match cs with
    | Char.ofNat 43 :: rest => rest
    | _ => cs
  if ds ≠ [] ∧ ds.all (fun c => c.isDigit) then
    let v := ds.foldl (fun acc c => acc * 10 + (c.toNat - 48)) 0
    if v < 4294967296 then some v else none
  else none

/-- The per-line device extraction of list_cameras (ffmpeg.rs lines
553-571): trim the line, find the last occurrence of the bracket pattern
that introduces the device index, take what precedes the closing bracket as
the u32 index, and what follows it, trimmed, as the name; any failure makes
the line yield nothing. -/
def parseDeviceLine (line : String) : Option CameraInfo :=
  let trimmed := trimChars line.data
  match rfindSubstr trimmed ("] [".data) with
  | none => none
  | some device_start =>
    let device_part := trimmed.drop (device_start + 3)
    match device_part.findIdx? (fun c => c = ']') with
    | none => none
    | some bracket_end =>
      match parseU32 (device_part.take bracket_end) with
      | none => none
      | some index =>
        let name := trimChars (device_part.drop (bracket_end + 1))
        if name = [] then none
        else some ⟨index, String.mk name⟩

/-- The line scan of list_cameras (ffmpeg.rs lines 526-572): the
video-devices header turns the section flag on, the audio-devices header
stops the scan, lines outside the section and screen-capture pseudo-device
lines are skipped, and each remaining line contributes its extracted
(index, name) pair, if any. -/
def scanCameraLines : List String → Bool → List CameraInfo
  | [], _ => []
  | line :: rest, inVideo =>
    if containsSubstr line "AVFoundation video devices" then
      scanCameraLines rest true
    else if containsSubstr line "AVFoundation audio devices" then []
    else if inVideo = false then scanCameraLines rest inVideo
    else if containsSubstr line "Capture screen" then
      scanCameraLines rest inVideo
    else
      match parseDeviceLine line with
      | some cam => cam :: scanCameraLines rest inVideo
      | none => scanCameraLines rest inVideo

/-- list_cameras (ffmpeg.rs lines 501-575), applied to the diagnostic lines
of the engine's device-listing output. -/
def list_cameras (lines : List String) : List CameraInfo :=
  scanCameraLines lines false

/-! ### Transcript time formatting (transcription.rs)

All operations format_srt_time and format_vtt_time perform on 125.5 (the
claim's input) are exact in binary floating point, so the ℚ model below
computes the very same component values the Rust code does. -/

/-- Rust f64 truncation toward zero, on exact rational values. -/
def fTrunc (q : ℚ) : Int := if 0 ≤ q then ⌊q⌋ else -⌊-q⌋

/-- The Rust remainder operator on f64 (truncated remainder), on exact
rational values. -/
def fRem (x y : ℚ) : ℚ := x - y * (fTrunc (x / y) : ℚ)

/-- Zero-padding of a (nonnegative) integer to a given width, as Rust's
zero-fill format specifier prints the nonnegative components here. -/
def padZero (w : Nat) (n : Int) : String :=
  let s := toString n.toNat
  String.mk (List.replicate (w - s.length) (Char.ofNat 48)) ++ s

/-- format_srt_time (transcription.rs lines 265-271). -/
def format_srt_time (seconds : ℚ) : String :=
  let hours := ⌊seconds / 3600⌋
  let minutes := ⌊fRem seconds 3600 / 60⌋
  let secs := ⌊fRem seconds 60⌋
  let millis := ⌊fRem seconds 1 * 1000⌋
  padZero 2 hours ++ ":" ++ padZero 2 minutes ++ ":" ++ padZero 2 secs
    ++ "," ++ padZero 3 millis

/-- format_vtt_time (transcription.rs lines 273-279). -/
def format_vtt_time (seconds : ℚ) : String :=
  let hours := ⌊seconds / 3600⌋
  let minutes := ⌊fRem seconds 3600 / 60⌋
  let secs := ⌊fRem seconds 60⌋
  let millis := ⌊fRem seconds 1 * 1000⌋
  padZero 2 hours ++ ":" ++ padZero 2 minutes ++ ":" ++ padZero 2 secs
    ++ "." ++ padZero 3 millis

lemma buildSegments_cursor (scale : String) (fps : Nat) :
    ∀ (l : List (Nat × ClipInfo)) (t : ℚ),
      (buildSegments scale fps l t).2.2 = cursorAfter t (l.map Prod.snd)
  | [], _ => rfl
  | (i, c) :: rest, t => by
    simp only [buildSegments, cursorAfter, List.map]
    exact buildSegments_cursor scale fps rest _

lemma buildSegments_labels_length (scale : String) (fps : Nat) :
    ∀ (l : List (Nat × ClipInfo)) (t : ℚ),
      (buildSegments scale fps l t).2.1.length
        = internalGapCount t (l.map Prod.snd) + l.length
  | [], _ => rfl
  | (i, c) :: rest, t => by
    have ih := buildSegments_labels_length scale fps rest
      (c.start_time + c.duration)
    by_cases h : t < c.start_time <;>
      simp [buildSegments, internalGapCount, h, ih] <;> omega

lemma specGapCount_split (L : ℚ) :
    ∀ (l : List ClipInfo) (t : ℚ),
      specGapCount L t l
        = internalGapCount t l + (if cursorAfter t l < L then 1 else 0)
  | [], t => by simp [specGapCount, internalGapCount, cursorAfter]
  | c :: r, t => by
    simp only [specGapCount, internalGapCount, cursorAfter]
    rw [specGapCount_split L r]
    omega

lemma cursorAfter_lastEnd :
    ∀ (l : List ClipInfo) (t : ℚ) (c : ClipInfo), l.getLast? = some c →
      cursorAfter t l = c.start_time + c.duration
  | [], _, _, h => by simp at h
  | [c0], _, c, h => by
    simp only [List.getLast?_singleton, Option.some.injEq] at h
    subst h; rfl
  | c0 :: c1 :: r, t, c, h => by
    rw [List.getLast?_cons_cons] at h
    rw [cursorAfter]
    exact cursorAfter_lastEnd (c1 :: r) _ c h

lemma buildSegments_trimEnd_congr (scale : String) (fps : Nat)
    (xs ys : List ClipInfo) (h : List.Forall₂ eqExceptTrimEnd xs ys) :
    ∀ (n : Nat) (t : ℚ),
      buildSegments scale fps (xs.enumFrom n) t
        = buildSegments scale fps (ys.enumFrom n) t := by
  induction h with
  | nil => intro n t; rfl
  | cons hab htail ih =>
    intro n t
    simp only [List.enumFrom, buildSegments]
    rw [hab.2.1, hab.2.2.1, hab.2.2.2, ih]

lemma inputArgs_trimEnd_congr (xs ys : List ClipInfo)
    (h : List.Forall₂ eqExceptTrimEnd xs ys) :
    (xs.map fun c => ["-i", c.file_path])
      = ys.map fun c => ["-i", c.file_path] := by
  induction h with
  | nil => rfl
  | cons hab htail ih =>
    simp only [List.map]
    rw [hab.1, ih]

lemma composeParts_trimEnd_congr (scale : String) (fps : Nat) (L : ℚ)
    (xs ys : List ClipInfo) (h : List.Forall₂ eqExceptTrimEnd xs ys) :
    composeParts xs scale fps L = composeParts ys scale fps L := by
  have hbs : buildSegments scale fps xs.enum 0
      = buildSegments scale fps ys.enum 0 :=
    buildSegments_trimEnd_congr scale fps xs ys h 0 0
  have hlen : xs.length = ys.length := h.length_eq
  simp only [composeParts, hbs, hlen]

/-- C1 (amended): for every clip list sorted by timeline start offset with no
overlapping clips, the compositor emits exactly n_gaps + n_clips segments
(n_gaps counting the strictly positive gaps, including a possible trailing
gap), and the final concatenation directive joins exactly the emitted labels
in emission order with its n= count equal to that number of segments. -/
theorem c1_segment_count (clips : List ClipInfo) (resolution scale : String)
    (fps : Nat) (L : ℚ)
    (hres : resolutionScale resolution = some scale)
    (hsorted : sortedNoOverlap 0 clips = true) :
    (composeParts clips scale fps L).2.length
        = specGapCount L 0 clips + clips.length ∧
    (composeParts clips scale fps L).1.getLast?
        = some (String.join (composeParts clips scale fps L).2
            ++ "concat=n=" ++ Nat.repr (composeParts clips scale fps L).2.length
            ++ ":v=1:a=0[outv]") ∧
    build_filter_complex clips resolution fps L
        = .ok (String.intercalate ";" (composeParts clips scale fps L).1) := by
  have hlen := buildSegments_labels_length scale fps clips.enum 0
  have hcur := buildSegments_cursor scale fps clips.enum 0
  rw [List.enum_map_snd] at hlen hcur
  refine ⟨?_, ?_, ?_⟩
  · rw [specGapCount_split]
    simp only [composeParts]
    split
    · simp only [List.length_append, List.length_singleton, hlen,
        List.enum_length]
      rw [if_pos (hcur ▸ (by assumption))]
      omega
    · simp only [hlen, List.enum_length]
      rw [if_neg (hcur ▸ (by assumption))]
      omega
  · simp only [composeParts]
    split <;> simp [List.getLast?_concat]
  · unfold build_filter_complex
    rw [hres]

/-- C1 counterexample: for the sorted, overlap-free single-clip list whose
clip starts at 1 (one strictly positive leading gap, no trailing gap, so
n_gaps = 1, n_clips = 1), the compositor emits 2 segments, not
2*n_gaps + n_clips = 3 as the claim states. -/
theorem c1_counterexample :
    resolutionScale "720p" = some "1280:720" ∧
    sortedNoOverlap 0 [⟨"a.mp4", 1, 1, 0, 1⟩] = true ∧
    (composeParts [⟨"a.mp4", 1, 1, 0, 1⟩] "1280:720" 30 2).2.length
      ≠ 2 * specGapCount 2 0 [⟨"a.mp4", 1, 1, 0, 1⟩]
          + [(⟨"a.mp4", 1, 1, 0, 1⟩ : ClipInfo)].length := by
  refine ⟨by decide, by norm_num [sortedNoOverlap], ?_⟩
  norm_num [composeParts, buildSegments, specGapCount]

/-- C1 witness: the amended count theorem applied to a concrete sorted list
(one leading gap, one trailing gap, one clip: 2 gaps + 1 clip = 3). -/
theorem c1_witness :
    (composeParts [⟨"a.mp4", 1, 1, 0, 1⟩] "1280:720" 30 3).2.length
      = specGapCount 3 0 [⟨"a.mp4", 1, 1, 0, 1⟩]
          + [(⟨"a.mp4", 1, 1, 0, 1⟩ : ClipInfo)].length :=
  (c1_segment_count [⟨"a.mp4", 1, 1, 0, 1⟩] "720p" "1280:720" 30 3
    (by decide) (by norm_num [sortedNoOverlap])).1

/-- C4: the cursor after the loop equals the last clip's
start_time + duration; when that end time equals the composition length no
trailing gap segment is emitted, and whenever the cursor is strictly below
the composition length exactly one final gap segment is appended, of
duration composition_length - cursor. -/
theorem c4_trailing_gap (clips : List ClipInfo) (c : ClipInfo)
    (scale : String) (fps : Nat) (L : ℚ) (h : clips.getLast? = some c) :
    (buildSegments scale fps clips.enum 0).2.2 = c.start_time + c.duration ∧
    (c.start_time + c.duration = L →
      (composeParts clips scale fps L).2
        = (buildSegments scale fps clips.enum 0).2.1) ∧
    ((buildSegments scale fps clips.enum 0).2.2 < L →
      (composeParts clips scale fps L).2
          = (buildSegments scale fps clips.enum 0).2.1
            ++ [gapLabel clips.length] ∧
      gapFilter (L - (buildSegments scale fps clips.enum 0).2.2) fps scale
          clips.length ∈ (composeParts clips scale fps L).1) := by
  have hcur : (buildSegments scale fps clips.enum 0).2.2
      = c.start_time + c.duration := by
    rw [buildSegments_cursor, List.enum_map_snd]
    exact cursorAfter_lastEnd clips 0 c h
  refine ⟨hcur, ?_, ?_⟩
  · intro hL
    simp only [composeParts]
    rw [if_neg]
    rw [hcur, hL]
    exact lt_irrefl L
  · intro hlt
    simp only [composeParts]
    rw [if_pos hlt]
    exact ⟨rfl, by simp⟩

/-- C4 witness: the theorem applied to a concrete one-clip list, once with
the composition length equal to the clip's end (no trailing gap) and once
with a longer composition (one trailing gap of the remaining duration). -/
theorem c4_witness :
    ((composeParts [⟨"a.mp4", 0, 2, 0, 2⟩] "1280:720" 30 2).2
        = (buildSegments "1280:720" 30
            [(⟨"a.mp4", 0, 2, 0, 2⟩ : ClipInfo)].enum 0).2.1) ∧
    ((composeParts [⟨"a.mp4", 0, 2, 0, 2⟩] "1280:720" 30 5).2
        = (buildSegments "1280:720" 30
            [(⟨"a.mp4", 0, 2, 0, 2⟩ : ClipInfo)].enum 0).2.1
          ++ [gapLabel 1]) :=
  ⟨(c4_trailing_gap [⟨"a.mp4", 0, 2, 0, 2⟩] ⟨"a.mp4", 0, 2, 0, 2⟩
      "1280:720" 30 2 rfl).2.1 (by norm_num),
   ((c4_trailing_gap [⟨"a.mp4", 0, 2, 0, 2⟩] ⟨"a.mp4", 0, 2, 0, 2⟩
      "1280:720" 30 5 rfl).2.2 (by
        rw [buildSegments_cursor, List.enum_map_snd]
        norm_num [cursorAfter])).1⟩

/-- C6: an export with an empty clip list fails with the configuration error
and produces no engine invocation (no argument list), and the compositor
rejects any resolution name other than 720p, 1080p or source with an
explicit error, for every clip list, before building any filter text. -/
theorem c6_config_errors :
    (∀ (out res : String) (fps : Nat) (L : ℚ),
        export_video [] out res fps L = .error "No clips to export") ∧
    (∀ (clips : List ClipInfo) (res : String) (fps : Nat) (L : ℚ),
        res ≠ "720p" → res ≠ "1080p" → res ≠ "source" →
        build_filter_complex clips res fps L
          = .error ("Invalid resolution: " ++ res)) := by
  constructor
  · intro out res fps L
    rfl
  · intro clips res fps L h1 h2 h3
    unfold build_filter_complex resolutionScale
    simp [h1, h2, h3]

/-- C6 witness: the theorem applied to the empty clip list and to the
unrecognized resolution name 480p. -/
theorem c6_witness :
    export_video [] "out.mp4" "720p" 30 2 = .error "No clips to export" ∧
    build_filter_complex [⟨"a.mp4", 0, 1, 0, 1⟩] "480p" 30 2
      = .error ("Invalid resolution: " ++ "480p") :=
  ⟨c6_config_errors.1 "out.mp4" "720p" 30 2,
   c6_config_errors.2 [⟨"a.mp4", 0, 1, 0, 1⟩] "480p" 30 2
     (by decide) (by decide) (by decide)⟩

/-- C9: neither the filter-graph text nor the engine argument list depends on
the trim_end field: two clip lists that agree on every field except trim_end
yield the same build_filter_complex result and the same export_video
arguments. -/
theorem c9_trim_end_independent (xs ys : List ClipInfo)
    (h : List.Forall₂ eqExceptTrimEnd xs ys)
    (out res : String) (fps : Nat) (L : ℚ) :
    build_filter_complex xs res fps L = build_filter_complex ys res fps L ∧
    export_video xs out res fps L = export_video ys out res fps L := by
  have hbfc : build_filter_complex xs res fps L
      = build_filter_complex ys res fps L := by
    unfold build_filter_complex
    cases hres : resolutionScale res with
    | none => rfl
    | some scale =>
      dsimp only
      rw [composeParts_trimEnd_congr scale fps L xs ys h]
  have hemp : xs.isEmpty = ys.isEmpty := by
    cases h <;> rfl
  exact ⟨hbfc, by
    simp only [export_video, hemp, hbfc, inputArgs_trimEnd_congr xs ys h]⟩

/-- C9 witness: the theorem applied to two concrete one-clip lists that
differ only in trim_end (1 versus 5). -/
theorem c9_witness :
    build_filter_complex [⟨"a.mp4", 0, 1, 0, 1⟩] "720p" 30 2
      = build_filter_complex [⟨"a.mp4", 0, 1, 0, 5⟩] "720p" 30 2 ∧
    export_video [⟨"a.mp4", 0, 1, 0, 1⟩] "out.mp4" "720p" 30 2
      = export_video [⟨"a.mp4", 0, 1, 0, 5⟩] "out.mp4" "720p" 30 2 :=
  c9_trim_end_independent [⟨"a.mp4", 0, 1, 0, 1⟩] [⟨"a.mp4", 0, 1, 0, 5⟩]
    (.cons ⟨rfl, rfl, rfl, rfl⟩ .nil) "out.mp4" "720p" 30 2

lemma stop_recording_state (env : StopEnv) (g : Global)
    (h : g.session.is_recording = true) :
    (stop_recording env g).2.1
      = ⟨⟨false, none, g.session.output_path, g.session.recording_type⟩,
         none⟩ := by
  unfold stop_recording
  rw [h]
  simp only [Bool.true_eq_false, if_false]
  split <;> (try split) <;> rfl

/-- C2: every stop call made while the session is Recording — whatever the
environment does, so on success and on every error path alike — leaves the
session reset to Idle (is_recording = false, start_time = none), and a
subsequent status call reports active = false with elapsed 0. -/
theorem c2_stop_resets (env : StopEnv) (g : Global) (now : Nat)
    (h : g.session.is_recording = true) :
    (stop_recording env g).2.1.session.is_recording = false ∧
    (stop_recording env g).2.1.session.start_time = none ∧
    get_recording_status now (stop_recording env g).2.1
      = (false, 0, g.session.output_path, g.session.recording_type) := by
  rw [stop_recording_state env g h]
  simp [get_recording_status]

/-- C2 witness: the theorem applied to a concrete recording session whose
stop goes down the graceful-shutdown path. -/
theorem c2_witness :
    (stop_recording ⟨.running, "", "", true, some 5⟩
        ⟨⟨true, some 2, some "o.mp4", .screen⟩, some 7⟩).2.1.session.is_recording
      = false ∧
    (stop_recording ⟨.running, "", "", true, some 5⟩
        ⟨⟨true, some 2, some "o.mp4", .screen⟩, some 7⟩).2.1.session.start_time
      = none ∧
    get_recording_status 9 (stop_recording ⟨.running, "", "", true, some 5⟩
        ⟨⟨true, some 2, some "o.mp4", .screen⟩, some 7⟩).2.1
      = (false, 0, some "o.mp4", .screen) :=
  c2_stop_resets ⟨.running, "", "", true, some 5⟩
    ⟨⟨true, some 2, some "o.mp4", .screen⟩, some 7⟩ 9 rfl

/-- C3: precondition violations are rejected before any side effect: while
Recording, both start commands return the AlreadyRecording error with the
state untouched (output_path and kind keep their first-start values) and an
empty action trace (nothing spawned); while Idle, stop returns the
NotRecording error with the state untouched and an empty trace. -/
theorem c3_preconditions (g : Global) (envS envW : StartEnv) (envT : StopEnv)
    (out : String) (ci : Nat) :
    (g.session.is_recording = true →
      start_screen_recording envS out g
          = (.error "Recording is already in progress", g, []) ∧
      start_webcam_recording envW out ci g
          = (.error "Recording is already in progress", g, [])) ∧
    (g.session.is_recording = false →
      stop_recording envT g
          = (.error "No recording in progress", g, [])) := by
  constructor
  · intro h
    constructor <;> simp [start_screen_recording, start_webcam_recording, h]
  · intro h
    simp [stop_recording, h]

/-- C3 witness: the theorem applied to a concrete Recording state (both start
commands rejected, state kept) and to a concrete Idle state (stop
rejected, state kept). -/
theorem c3_witness :
    start_screen_recording ⟨true, "", true, "", 7, 1, .running, "", ""⟩
        "second.mp4" ⟨⟨true, some 0, some "first.mp4", .screen⟩, some 7⟩
      = (.error "Recording is already in progress",
         ⟨⟨true, some 0, some "first.mp4", .screen⟩, some 7⟩, []) ∧
    start_webcam_recording ⟨true, "", true, "", 7, 1, .running, "", ""⟩
        "second.mp4" 0 ⟨⟨true, some 0, some "first.mp4", .screen⟩, some 7⟩
      = (.error "Recording is already in progress",
         ⟨⟨true, some 0, some "first.mp4", .screen⟩, some 7⟩, []) ∧
    stop_recording ⟨.running, "", "", true, some 5⟩ initialGlobal
      = (.error "No recording in progress", initialGlobal, []) :=
  ⟨((c3_preconditions ⟨⟨true, some 0, some "first.mp4", .screen⟩, some 7⟩
      ⟨true, "", true, "", 7, 1, .running, "", ""⟩
      ⟨true, "", true, "", 7, 1, .running, "", ""⟩
      ⟨.running, "", "", true, some 5⟩ "second.mp4" 0).1 rfl).1,
   ((c3_preconditions ⟨⟨true, some 0, some "first.mp4", .screen⟩, some 7⟩
      ⟨true, "", true, "", 7, 1, .running, "", ""⟩
      ⟨true, "", true, "", 7, 1, .running, "", ""⟩
      ⟨.running, "", "", true, some 5⟩ "second.mp4" 0).1 rfl).2,
   (c3_preconditions initialGlobal
      ⟨true, "", true, "", 7, 1, .running, "", ""⟩
      ⟨true, "", true, "", 7, 1, .running, "", ""⟩
      ⟨.running, "", "", true, some 5⟩ "second.mp4" 0).2 rfl⟩

/-- C5 counterexample: stopping a still-running screen-capture session sleeps
a 1000 ms grace period, not the ≈500 ms the claim states for screen capture:
the slept duration does not depend on the session kind. -/
theorem c5_counterexample :
    (⟨⟨true, some 0, some "o.mp4", .screen⟩, some 7⟩
        : Global).session.recording_type = .screen ∧
    (stop_recording ⟨.running, "", "", true, some 5⟩
        ⟨⟨true, some 0, some "o.mp4", .screen⟩, some 7⟩).2.2
      = [.writeQuit, .sleepMs 1000, .kill, .wait] ∧
    Action.sleepMs 500 ∉ (stop_recording ⟨.running, "", "", true, some 5⟩
        ⟨⟨true, some 0, some "o.mp4", .screen⟩, some 7⟩).2.2 := by
  decide

/-- C5 (amended): in the graceful-shutdown protocol of stop (process still
running), the fixed grace period slept between writing the quit signal and
the liveness re-check is 1000 ms regardless of the active session kind
(screen or webcam): the trace is quit-write, 1000 ms sleep, kill when still
alive, wait. -/
theorem c5_grace_period (env : StopEnv) (g : Global)
    (hrec : g.session.is_recording = true) (hp : g.process.isSome = true)
    (hrun : env.tw1 = .running) :
    (stop_recording env g).2.2
      = [.writeQuit, .sleepMs 1000]
        ++ (if env.still_running then [.kill] else []) ++ [.wait] := by
  unfold stop_recording
  rw [hrec]
  obtain ⟨p, hp2⟩ := Option.isSome_iff_exists.mp hp
  simp only [hp2, hrun, Bool.true_eq_false, if_false]
  split <;> (try split) <;> rfl

/-- C5 witness: the amended theorem applied to one screen-capture session
and one webcam session, both still running at the stop call: both sleep
1000 ms. -/
theorem c5_witness :
    (stop_recording ⟨.running, "", "", false, some 5⟩
        ⟨⟨true, some 0, some "s.mp4", .screen⟩, some 7⟩).2.2
      = [.writeQuit, .sleepMs 1000, .wait] ∧
    (stop_recording ⟨.running, "", "", false, some 5⟩
        ⟨⟨true, some 0, some "w.mp4", .webcam 0⟩, some 8⟩).2.2
      = [.writeQuit, .sleepMs 1000, .wait] :=
  ⟨c5_grace_period ⟨.running, "", "", false, some 5⟩
      ⟨⟨true, some 0, some "s.mp4", .screen⟩, some 7⟩ rfl rfl rfl,
   c5_grace_period ⟨.running, "", "", false, some 5⟩
      ⟨⟨true, some 0, some "w.mp4", .webcam 0⟩, some 8⟩ rfl rfl rfl⟩

/-- C7: the invariant (inactive implies no start time and no owned process
handle) holds in the initial state and is preserved by every completed
operation: both starts (succeeding or failing, including the webcam
immediate-exit failure where the spawned child is dropped unstored) and
stop; status is a pure read whose type returns no new state, so it cannot
break the invariant. -/
theorem c7_invariant :
    SessionInv initialGlobal ∧
    (∀ (env : StartEnv) (out : String) (g : Global), SessionInv g →
      SessionInv (start_screen_recording env out g).2.1) ∧
    (∀ (env : StartEnv) (out : String) (ci : Nat) (g : Global),
      SessionInv g → SessionInv (start_webcam_recording env out ci g).2.1) ∧
    (∀ (env : StopEnv) (g : Global), SessionInv g →
      SessionInv (stop_recording env g).2.1) := by
  refine ⟨fun _ => ⟨rfl, rfl⟩, ?_, ?_, ?_⟩
  · intro env out g hg
    unfold start_screen_recording
    split
    · exact hg
    split
    · exact hg
    split
    · exact hg
    · intro h; simp at h
  · intro env out ci g hg
    unfold start_webcam_recording
    split
    · exact hg
    split
    · exact hg
    split
    · exact hg
    split
    · exact hg
    · intro h; simp at h
  · intro env g hg
    cases hb : g.session.is_recording
    · have hstop : stop_recording env g
          = (.error "No recording in progress", g, []) := by
        unfold stop_recording
        rw [hb]
        simp
      rw [hstop]
      exact hg
    · rw [stop_recording_state env g hb]
      exact fun _ => ⟨rfl, rfl⟩

/-- C7 witness: the invariant components applied at concrete states: a
screen start from the initial state, a failing webcam start (immediate
exit), and a stop of a live recording. -/
theorem c7_witness :
    SessionInv (start_screen_recording
      ⟨true, "", true, "", 7, 0, .running, "", ""⟩ "o.mp4" initialGlobal).2.1 ∧
    SessionInv (start_webcam_recording
      ⟨true, "", true, "", 7, 0, .exited false, "boom", ""⟩ "w.mp4" 0
      initialGlobal).2.1 ∧
    SessionInv (stop_recording ⟨.running, "", "", true, some 5⟩
      ⟨⟨true, some 0, some "o.mp4", .screen⟩, some 7⟩).2.1 :=
  ⟨c7_invariant.2.1 ⟨true, "", true, "", 7, 0, .running, "", ""⟩ "o.mp4"
      initialGlobal c7_invariant.1,
   c7_invariant.2.2.1 ⟨true, "", true, "", 7, 0, .exited false, "boom", ""⟩
      "w.mp4" 0 initialGlobal c7_invariant.1,
   c7_invariant.2.2.2 ⟨.running, "", "", true, some 5⟩
      ⟨⟨true, some 0, some "o.mp4", .screen⟩, some 7⟩
      (fun h => Bool.noConfusion h)⟩

/-- C8 counterexample: the claim's block, with its camera line being
literally "[0] Built-in Camera", yields no camera entry at all (the line has
no occurrence of the bracket pattern the parser anchors on), not exactly one
entry as the claim states. -/
theorem c8_counterexample :
    list_cameras ["AVFoundation video devices:",
      "[AVFoundation indev @ 0x156630da0] [3] Capture screen 0",
      "[0] Built-in Camera",
      "AVFoundation audio devices:"] = [] ∧
    list_cameras ["AVFoundation video devices:",
      "[AVFoundation indev @ 0x156630da0] [3] Capture screen 0",
      "[0] Built-in Camera",
      "AVFoundation audio devices:"]
      ≠ [⟨0, "Built-in Camera"⟩] := by
  decide

/-- C8 (amended): lines before the section headers are ignored, the scan
stops at the audio-devices header, screen-capture pseudo-device lines inside
the section are skipped; and a block whose camera line carries the
diagnostic prefix — so that the bracket pattern of the parser occurs, e.g.
a line of the form prefix-brackets, then index 0 in brackets, then the name
Built-in Camera — together with a video-devices header, one screen-capture
line and an audio-devices header, yields exactly one entry
(index 0, name Built-in Camera). -/
theorem c8_device_parsing :
    (∀ (line : String) (rest : List String),
      containsSubstr line "AVFoundation video devices" = false →
      containsSubstr line "AVFoundation audio devices" = false →
      list_cameras (line :: rest) = list_cameras rest) ∧
    (∀ (line : String) (rest : List String) (b : Bool),
      containsSubstr line "AVFoundation audio devices" = true →
      containsSubstr line "AVFoundation video devices" = false →
      scanCameraLines (line :: rest) b = []) ∧
    (∀ (line : String) (rest : List String),
      containsSubstr line "AVFoundation video devices" = false →
      containsSubstr line "AVFoundation audio devices" = false →
      containsSubstr line "Capture screen" = true →
      scanCameraLines (line :: rest) true = scanCameraLines rest true) ∧
    list_cameras
      ["[AVFoundation indev @ 0x156630da0] [9] Before header",
       "[AVFoundation indev @ 0x156630da0] AVFoundation video devices:",
       "[AVFoundation indev @ 0x156630da0] [3] Capture screen 0",
       "[AVFoundation indev @ 0x156630da0] [0] Built-in Camera",
       "[AVFoundation indev @ 0x156630da0] AVFoundation audio devices:",
       "[AVFoundation indev @ 0x156630da0] [1] MacBook Pro Microphone"]
      = [⟨0, "Built-in Camera"⟩] := by
  refine ⟨?_, ?_, ?_, by decide⟩
  · intro line rest h1 h2
    simp only [list_cameras]
    conv_lhs => rw [scanCameraLines]
    simp [h1, h2]
  · intro line rest b h1 h2
    conv_lhs => rw [scanCameraLines]
    simp [h1, h2]
  · intro line rest h1 h2 h3
    conv_lhs => rw [scanCameraLines]
    simp [h1, h2, h3]

/-- C8 witness: the delimiting components of the theorem applied to concrete
lines: a junk line before the section is ignored, the audio header stops the
scan, and a screen-capture pseudo-device line is skipped. -/
theorem c8_witness :
    list_cameras ["garbage line", "AVFoundation video devices:"]
      = list_cameras ["AVFoundation video devices:"] ∧
    scanCameraLines ["AVFoundation audio devices:", "[0] X"] true = [] ∧
    scanCameraLines ["[AVFoundation indev @ 0x1] [3] Capture screen 0"] true
      = scanCameraLines [] true :=
  ⟨c8_device_parsing.1 "garbage line" ["AVFoundation video devices:"]
      (by decide) (by decide),
   c8_device_parsing.2.1 "AVFoundation audio devices:" ["[0] X"] true
      (by decide) (by decide),
   c8_device_parsing.2.2.1 "[AVFoundation indev @ 0x1] [3] Capture screen 0"
      [] (by decide) (by decide) (by decide)⟩

/-- C10: 125.5 seconds formats as 00:02:05,500 in the numbered-cue (SRT)
format and as 00:02:05.500 in the web-cue (VTT) format. -/
theorem c10_time_formatting :
    format_srt_time (251/2) = "00:02:05,500" ∧
    format_vtt_time (251/2) = "00:02:05.500" := by
  have ht3600 : fTrunc ((251/2 : ℚ) / 3600) = 0 := by
    rw [fTrunc, if_pos (by norm_num)]
    norm_num
  have h3600 : fRem (251/2) 3600 = (251/2 : ℚ) := by
    rw [fRem, ht3600]
    norm_num
  have ht60 : fTrunc ((251/2 : ℚ) / 60) = 2 := by
    rw [fTrunc, if_pos (by norm_num)]
    norm_num
  have h60 : fRem (251/2) 60 = (11/2 : ℚ) := by
    rw [fRem, ht60]
    norm_num
  have ht1 : fTrunc ((251/2 : ℚ) / 1) = 125 := by
    rw [fTrunc, if_pos (by norm_num)]
    norm_num
  have h1 : fRem (251/2) 1 = (1/2 : ℚ) := by
    rw [fRem, ht1]
    norm_num
  have hh : ⌊(251/2 : ℚ) / 3600⌋ = 0 := by norm_num
  have hm : ⌊(251/2 : ℚ) / 60⌋ = 2 := by norm_num
  have hs : ⌊(11/2 : ℚ)⌋ = 5 := by norm_num
  have hms : ⌊(1/2 : ℚ) * 1000⌋ = 500 := by norm_num
  constructor <;>
    · simp only [format_srt_time, format_vtt_time, h3600, h60, h1, hh, hm,
        hs, hms]
      decide

end CapCut
